/-
Verification of the mcp-solana-ico server core: pricing engine, rate limiter,
ICO registry, payment validation and the buy/sell orchestration, shallowly
embedded from the Python sources (mcp_solana_ico/pricing.py, rate_limiter.py,
ico_manager.py, solana_utils.py, server.py).  Python floats are modelled as
rationals, Python ints as integers, dictionaries as association lists, and
fallible code returns Option/Except.  External I/O (the Solana RPC ledger and
the config-file store) is modelled by explicit oracle parameters.
-/
import Mathlib

/-- Association map with string keys, modelling a Python dict.
Lookup returns the first binding; set replaces in place or appends. -/
abbrev SMap (α : Type) := List (String × α)

/-- Dict lookup: first binding for the key, if any. -/
def SMap.find {α : Type} : SMap α → String → Option α
  | [], _ => none
  | (k, v) :: rest, key => if key = k then some v else SMap.find rest key

/-- Dict assignment: replace the first binding in place, or append a new one. -/
def SMap.set {α : Type} : SMap α → String → α → SMap α
  | [], key, v => [(key, v)]
  | (k, w) :: rest, key, v =>
      if key = k then (key, v) :: rest else (k, w) :: SMap.set rest key v

/-- Python `10 ** d` for an integer `d` (a float `10.0 ** d` when `d < 0`). -/
def pow10 (d : ℤ) : ℚ :=
  if 0 ≤ d then (10 : ℚ) ^ d.toNat else ((10 : ℚ) ^ (-d).toNat)⁻¹

/-- Python `math.pow b n` for an integer exponent `n`. -/
def qpowInt (b : ℚ) (n : ℤ) : ℚ :=
  if 0 ≤ n then b ^ n.toNat else (b ^ (-n).toNat)⁻¹

/-- Bonding-curve kinds, from `schemas.CurveType`. -/
inductive CurveType where
  | fixed
  | linear
  | exponential
  | sigmoid
  | custom
deriving DecidableEq, Repr

/-- Token metadata, from `schemas.TokenConfig`. -/
structure TokenConfig where
  name : String
  symbol : String
  total_supply : ℤ
  decimals : ℤ
deriving DecidableEq, Repr

/-- Per-ICO settings, from `schemas.IcoConfig`.  Optional curve parameters
default to `none`, the sell fee defaults to `0`, as in the pydantic model. -/
structure IcoConfig where
  ico_id : String
  start_time : ℤ
  end_time : ℤ
  curve_type : CurveType
  fixed_price : Option ℚ := none
  initial_price : Option ℚ := none
  slope : Option ℚ := none
  growth_rate : Option ℚ := none
  custom_formula : Option String := none
  sell_fee_percentage : ℚ := 0
deriving DecidableEq, Repr

/-- A full ICO configuration document, from `schemas.IcoConfigModel`. -/
structure IcoConfigModel where
  token : TokenConfig
  ico : IcoConfig
deriving DecidableEq, Repr

/-- The variable bindings handed to the custom-formula evaluation in
`pricing.calculate_token_price` (the `eval_context` dictionary). -/
structure CustomEnv where
  initial_price : ℚ
  total_tokens_minted : ℤ
  slope : Option ℚ
  growth_rate : Option ℚ

/-- Oracle for Python `eval` of a custom formula string over the restricted
context; `none` models an evaluation error (which `pricing.py` converts to a
`ValueError`). -/
abbrev CustomEval := String → CustomEnv → Option ℚ

/-- Per-token base price before clamping, from the curve dispatch in
`pricing.calculate_token_price` (pricing.py lines 73-118).  `none` models the
raised `ValueError`/`NotImplementedError` (the outer handler at line 116
rewraps every failure as a `ValueError`). -/
def basePricePerToken (ec : CustomEval) (ico : IcoConfigModel) (minted : ℤ) :
    Option ℚ :=
  match ico.ico.curve_type with
  | .fixed => ico.ico.fixed_price
  | .linear =>
      match ico.ico.initial_price, ico.ico.slope with
      | some p, some s => some (p + s * (minted : ℚ))
      | _, _ => none
  | .exponential =>
      match ico.ico.initial_price, ico.ico.growth_rate with
      | some p, some g => some (p * qpowInt (1 + g) minted)
      | _, _ => none
  | .sigmoid => none
  | .custom =>
      match ico.ico.custom_formula, ico.ico.initial_price with
      | some f, some p =>
          ec f ⟨p, minted, ico.ico.slope, ico.ico.growth_rate⟩
      | _, _ => none

/-- The pricing engine `pricing.calculate_token_price`, with the current
minted counter passed explicitly (the Python code reads it from
`ico_manager.total_tokens_minted`).  A negative base price is clamped to `0`
(line 122), the total is `amount_in_tokens * base` (line 127), and a sell
nets out the fee and is floored at `0` (lines 129-134). -/
def calculate_token_price (ec : CustomEval) (amount : ℤ) (ico : IcoConfigModel)
    (minted : ℤ) (is_sell : Bool) : Option ℚ :=
  match basePricePerToken ec ico minted with
  | none => none
  | some bp =>
      let amount_in_tokens : ℚ := (amount : ℚ) / pow10 ico.token.decimals
      let base : ℚ := max 0 bp
      let total : ℚ := amount_in_tokens * base
      if is_sell then
        some (max 0 (total - total * ico.ico.sell_fee_percentage))
      else
        some total

/-- Gross sell value before the fee: whole-token amount times the clamped
per-token price, as computed at pricing.py line 127. -/
def sellGross (amount : ℤ) (ico : IcoConfigModel) (bp : ℚ) : ℚ :=
  ((amount : ℚ) / pow10 ico.token.decimals) * max 0 bp

/-- Rate-limiter cache, modelling `rate_limiter.rate_limit_cache`:
per-IP `(count, window_start_timestamp)` entries in insertion order. -/
abbrev RateCache := List (String × ℕ × ℤ)

/-- Lookup of an IP in the rate-limit cache (first binding). -/
def rlLookup : RateCache → String → Option (ℕ × ℤ)
  | [], _ => none
  | (k, v) :: rest, ip => if ip = k then some v else rlLookup rest ip

/-- Removal of every binding for an IP (dict deletion). -/
def rlRemove : RateCache → String → RateCache
  | [], _ => []
  | (k, v) :: rest, ip =>
      if k = ip then rlRemove rest ip else (k, v) :: rlRemove rest ip

/-- Dict assignment followed by `move_to_end`, as done on every write in
`rate_limiter.check_rate_limit`: the binding ends up last. -/
def rlSet (c : RateCache) (ip : String) (v : ℕ × ℤ) : RateCache :=
  rlRemove c ip ++ [(ip, v)]

/-- Model of `rate_limiter.cleanup_old_entries`: drop entries whose window start is
strictly before the cutoff. -/
def cleanup_old_entries (cutoff : ℤ) (c : RateCache) : RateCache :=
  c.filter (fun e => decide (¬ e.2.2 < cutoff))

/-- Model of `rate_limiter.check_rate_limit` with the clock and the configured limit
passed explicitly.  Returns the admit decision and the updated cache.
Mirrors rate_limiter.py lines 64-97: opportunistic cleanup when more than
1000 entries are tracked, then window reset / limit check / increment /
fresh-entry insertion. -/
def check_rate_limit (limit : ℕ) (now : ℤ) (ip : String) (c : RateCache) :
    Bool × RateCache :=
  let c1 := if 1000 < c.length then cleanup_old_entries (now - 60) c else c
  match rlLookup c1 ip with
  | some (count, timestamp) =>
      if 60 ≤ now - timestamp then
        (true, rlSet c1 ip (1, now))
      else if limit ≤ count then
        (false, c1)
      else
        (true, rlSet c1 ip (count + 1, timestamp))
  | none => (true, rlSet c1 ip (1, now))

/-- Cache state after `k` consecutive `check_rate_limit` calls for `ip`, the
`i`-th call (0-indexed) made at time `t i`. -/
def admitIter (limit : ℕ) (t : ℕ → ℤ) (ip : String) (c : RateCache) :
    ℕ → RateCache
  | 0 => c
  | k + 1 => (check_rate_limit limit (t k) ip (admitIter limit t ip c k)).2

/-- Error kinds of payment validation, from `errors.py`:
`InvalidTransactionError` and `InsufficientFundsError`. -/
inductive PayError where
  | invalidTransaction
  | insufficientFunds
deriving DecidableEq, Repr

/-- The parsed `info` object of the first instruction of a fetched
transaction, as read by `solana_utils.validate_payment_transaction`. -/
structure TransferInfo where
  source : String
  destination : String
  lamports : ℤ
deriving DecidableEq, Repr

/-- An instruction of the fetched transaction: program id, parsed type and
parsed transfer info. -/
structure Instruction where
  programId : String
  parsedType : String
  info : TransferInfo
deriving DecidableEq, Repr

/-- The `getTransaction` RPC response as consumed by
`solana_utils.validate_payment_transaction`: error flag, result presence,
on-chain failure flag and the instruction list. -/
structure RpcTx where
  hasError : Bool
  hasResult : Bool
  metaErr : Bool
  instructions : List Instruction
deriving DecidableEq, Repr

/-- The system program id string checked at solana_utils.py line 84. -/
def systemProgramId : String := "11111111111111111111111111111111"

/-- Lamports per SOL (`config.LAMPORTS_PER_SOL`). -/
def lamportsPerSol : ℚ := 10 ^ 9

/-- The body of the `try` block of `solana_utils.validate_payment_transaction`
(lines 48-110): fetch checks, shape checks, destination check, then the
amount floor check raising `InsufficientFundsError`, else the payer. -/
def validate_payment_transaction_body (icoWallet : String) (required_sol : ℚ)
    (resp : RpcTx) : Except PayError String :=
  if resp.hasError then .error .invalidTransaction
  else if ¬ resp.hasResult then .error .invalidTransaction
  else if resp.metaErr then .error .invalidTransaction
  else
    match resp.instructions with
    | [] => .error .invalidTransaction
    | ix :: _ =>
        if ¬ ix.programId = systemProgramId then .error .invalidTransaction
        else if ¬ ix.parsedType = "transfer" then .error .invalidTransaction
        else
          let transfer_amount_sol : ℚ := (ix.info.lamports : ℚ) / lamportsPerSol
          if ¬ ix.info.destination = icoWallet then .error .invalidTransaction
          else if transfer_amount_sol < required_sol then
            .error .insufficientFunds
          else
            .ok ix.info.source

/-- Model of `solana_utils.validate_payment_transaction` as observed by its callers:
the handler chain at lines 112-120 ends in `except Exception`, which catches
every exception raised in the body - including the `InsufficientFundsError`
raised at line 104 - and re-raises it as `InvalidTransactionError`. -/
def validate_payment_transaction (icoWallet : String) (required_sol : ℚ)
    (resp : RpcTx) : Except PayError String :=
  match validate_payment_transaction_body icoWallet required_sol resp with
  | .ok payer => .ok payer
  | .error _ => .error .invalidTransaction

/-- In-memory registry owned by `ico_manager`: the `ico_data` dict and the
`total_tokens_minted` dict. -/
structure RegistryState where
  icoData : SMap IcoConfigModel
  minted : SMap ℤ
deriving DecidableEq, Repr

/-- Model of `ico_manager.get_total_tokens_minted`: `total_tokens_minted.get(id, 0)`. -/
def get_total_tokens_minted (minted : SMap ℤ) (ico_id : String) : ℤ :=
  (SMap.find minted ico_id).getD 0

/-- Model of `ico_manager.increment_tokens_minted`: add to an existing entry, or set
the entry to the amount when the id is untracked (ico_manager.py 109-116). -/
def increment_tokens_minted (minted : SMap ℤ) (ico_id : String) (amount : ℤ) :
    SMap ℤ :=
  match SMap.find minted ico_id with
  | some m => SMap.set minted ico_id (m + amount)
  | none => SMap.set minted ico_id amount

/-- Model of `ico_manager.add_or_update_ico` with the config-file save modelled by the
oracle `saveOk` (ico_manager.py 126-153): the in-memory `ico_data` entry is
written and a missing `total_tokens_minted` entry is initialised to 0 before
the save is attempted; the returned flag is the save outcome, and no rollback
is performed on failure (the rollback at lines 149-152 is commented out). -/
def add_or_update_ico (saveOk : Bool) (st : RegistryState)
    (cfg : IcoConfigModel) : Bool × RegistryState :=
  let ico_id := cfg.ico.ico_id
  let icoData1 := SMap.set st.icoData ico_id cfg
  let minted1 :=
    match SMap.find st.minted ico_id with
    | some _ => st.minted
    | none => SMap.set st.minted ico_id 0
  (saveOk, ⟨icoData1, minted1⟩)

/-- Upper bound on token amounts, `server.MAX_TOKEN_AMOUNT = 10 ** 18`. -/
def maxTokenAmount : ℤ := 10 ^ 18

/-- Discount constants from server.py lines 45-47. -/
def discountBaseTokens : ℚ := 1000

/-- Discount rate: 1 percent per base block of tokens (server.py line 46). -/
def discountRate : ℚ := 1 / 100

/-- Discount cap: 10 percent (server.py line 47). -/
def maxDiscountPercentage : ℚ := 1 / 10

/-- Outcome categories of `server.buy_tokens`, one per return path: the
plain returns (`notFound`, `sellNotImplemented`, success) and the except
branches at server.py lines 417-438.  `valueError` is the
`except ValueError` branch, which answers the message
"Error processing request: Invalid input parameters". -/
inductive BuyOutcome where
  | success
  | notFound
  | sellNotImplemented
  | rateLimitExceeded
  | inactiveICO
  | insufficientFunds
  | invalidTransaction
  | transactionFailed
  | valueError
  | unexpectedError
deriving DecidableEq, Repr

/-- Whether an outcome is the successful-purchase return. -/
def BuyOutcome.isSuccess : BuyOutcome → Bool
  | .success => true
  | _ => false

/-- A `buy_tokens` request: the tool arguments of server.py lines 240-256. -/
structure BuyRequest where
  ico_id : String
  amount : ℤ
  payment_transaction : String
  client_ip : String
  sell : Bool
deriving Repr

/-- External-world oracle for one `buy_tokens` run: whether
`Signature.from_string` accepts the payment string, the `getTransaction`
response consumed by payment validation, and whether the token transfer in
`create_and_send_token_transfer` succeeds (any of its failures surfaces as
`TransactionFailedError`). -/
structure LedgerOracle where
  sigOk : Bool
  resp : RpcTx
  transferOk : Bool
deriving Repr

/-- Mutable server state touched by `buy_tokens`: the registry dicts of
`ico_manager` and the rate-limit cache of `rate_limiter`. -/
structure ServerState where
  icoData : SMap IcoConfigModel
  minted : SMap ℤ
  rateCache : RateCache
deriving Repr

/-- Model of `server.validate_token_operation_params` (server.py 92-121) as a
predicate: non-empty bounded ico id, positive bounded amount, non-empty
bounded payment transaction, non-empty client ip. -/
def validate_token_operation_params (req : BuyRequest) : Prop :=
  ¬ req.ico_id = "" ∧ req.ico_id.length ≤ 100 ∧
  0 < req.amount ∧ req.amount ≤ maxTokenAmount ∧
  ¬ req.payment_transaction = "" ∧ req.payment_transaction.length ≤ 200 ∧
  ¬ req.client_ip = ""

instance (req : BuyRequest) : Decidable (validate_token_operation_params req) :=
  by unfold validate_token_operation_params; infer_instance

/-- Model of `server.buy_tokens` (server.py 239-438) as a state transformer, with the
clock, rate limit, custom-formula evaluator, ICO wallet address and the
ledger oracle passed explicitly.  The step order follows the code: input
validation, rate limiting, ICO lookup, activity window, price computation
(with the non-negativity re-check at line 347), signature parsing, then for
buys payment validation / token transfer / minted-counter increment, and for
sells the not-implemented return. -/
def buy_tokens (limit : ℕ) (now : ℤ) (ec : CustomEval) (icoWallet : String)
    (orc : LedgerOracle) (req : BuyRequest) (st : ServerState) :
    BuyOutcome × ServerState :=
  if ¬ validate_token_operation_params req then (.valueError, st)
  else
    let rl := check_rate_limit limit now req.client_ip st.rateCache
    let st1 : ServerState := { st with rateCache := rl.2 }
    if ¬ rl.1 then (.rateLimitExceeded, st1)
    else
      match SMap.find st1.icoData req.ico_id with
      | none => (.notFound, st1)
      | some ico =>
          if ¬ (ico.ico.start_time ≤ now ∧ now ≤ ico.ico.end_time) then
            (.inactiveICO, st1)
          else
            match calculate_token_price ec req.amount ico
                (get_total_tokens_minted st1.minted req.ico_id) req.sell with
            | none => (.valueError, st1)
            | some price =>
                if price < 0 then (.valueError, st1)
                else if ¬ orc.sigOk then (.invalidTransaction, st1)
                else if req.sell then (.sellNotImplemented, st1)
                else
                  match validate_payment_transaction icoWallet price orc.resp with
                  | .error .invalidTransaction => (.invalidTransaction, st1)
                  | .error .insufficientFunds => (.insufficientFunds, st1)
                  | .ok _ =>
                      if ¬ orc.transferOk then (.transactionFailed, st1)
                      else
                        (.success,
                         { st1 with
                            minted := increment_tokens_minted st1.minted
                              req.ico_id req.amount })

/-- Outcome categories of `server.get_discount`: the validation/config error
returns, the not-found return, and the formatted percentage. -/
inductive DiscountResult where
  | valueError
  | notFound
  | ok (pct : ℚ)
deriving DecidableEq, Repr

/-- Model of `server.get_discount` (server.py 442-482): id and amount validation,
registry lookup, then the tiered formula
`min(token_amount / 1000 * 0.01, 0.1)` on the whole-token holding. -/
def get_discount (icoData : SMap IcoConfigModel) (ico_id : String)
    (amount : ℤ) : DiscountResult :=
  if ico_id = "" then .valueError
  else if ¬ ico_id.length ≤ 100 then .valueError
  else if amount < 0 then .valueError
  else if maxTokenAmount < amount then .valueError
  else
    match SMap.find icoData ico_id with
    | none => .notFound
    | some ico =>
        let token_amount : ℚ := (amount : ℚ) / pow10 ico.token.decimals
        let discount_percentage := token_amount / discountBaseTokens * discountRate
        .ok (min discount_percentage maxDiscountPercentage)

/-- Setting a key makes it findable with the new value. -/
theorem SMap.find_set_self {α : Type} (m : SMap α) (k : String) (v : α) :
    SMap.find (SMap.set m k v) k = some v := by
  induction m with
  | nil => simp [SMap.set, SMap.find]
  | cons e rest ih =>
      obtain ⟨k1, w⟩ := e
      by_cases h : k = k1 <;> simp [SMap.set, SMap.find, h, ih]

/-- Setting one key leaves every other key's binding unchanged. -/
theorem SMap.find_set_ne {α : Type} (m : SMap α) (k k1 : String) (v : α)
    (h : ¬ k1 = k) : SMap.find (SMap.set m k v) k1 = SMap.find m k1 := by
  induction m with
  | nil => simp [SMap.set, SMap.find, h]
  | cons e rest ih =>
      obtain ⟨k2, w⟩ := e
      by_cases h2 : k = k2
      · subst h2; simp [SMap.set, SMap.find, h]
      · by_cases h3 : k1 = k2 <;> simp [SMap.set, SMap.find, h2, h3, ih]

/-- Python `10 ** d` is positive for every integer exponent. -/
theorem pow10_pos (d : ℤ) : 0 < pow10 d := by
  unfold pow10
  split
  · positivity
  · positivity

/-- A shared custom-formula oracle that always fails; the claims below never
exercise the custom branch with it. -/
def noEval : CustomEval := fun _ _ => none

/-- Claim C5: for a linear-curve ICO with both parameters set and a
non-negative per-token price, the buy price equals
`(amount / 10^decimals) * (initial_price + slope * current_minted)`,
where the minted counter is the pre-transaction value handed to the pricing
engine. -/
theorem calculate_token_price_linear_buy (ec : CustomEval)
    (ico : IcoConfigModel) (amount minted : ℤ) (p s : ℚ)
    (hc : ico.ico.curve_type = .linear)
    (hp : ico.ico.initial_price = some p)
    (hs : ico.ico.slope = some s)
    (hnn : 0 ≤ p + s * (minted : ℚ)) :
    calculate_token_price ec amount ico minted false =
      some (((amount : ℚ) / pow10 ico.token.decimals) *
        (p + s * (minted : ℚ))) := by
  unfold calculate_token_price basePricePerToken
  rw [hc, hp, hs]
  simp [max_eq_right hnn]

/-- A linear-curve fixture: `initial_price = 1e-6`, `slope = 1e-8`,
9 decimals, matching the end-to-end scenario of the spec. -/
def icoLinear : IcoConfigModel :=
  { token := { name := "MyToken", symbol := "MMT",
               total_supply := 10 ^ 9, decimals := 9 },
    ico := { ico_id := "main_ico", start_time := 0, end_time := 10 ^ 10,
             curve_type := .linear,
             initial_price := some (1 / 1000000),
             slope := some (1 / 100000000) } }

/-- Witness for C5 at the spec's end-to-end scenario: 1000 base units at
9 decimals, minted 0, price per token `1e-6`. -/
theorem calculate_token_price_linear_buy_witness :
    icoLinear.ico.curve_type = .linear ∧
    icoLinear.ico.initial_price = some (1 / 1000000) ∧
    icoLinear.ico.slope = some (1 / 100000000) ∧
    (0 : ℚ) ≤ 1 / 1000000 + 1 / 100000000 * ((0 : ℤ) : ℚ) ∧
    calculate_token_price noEval 1000 icoLinear 0 false =
      some (((1000 : ℤ) : ℚ) / pow10 icoLinear.token.decimals *
        (1 / 1000000 + 1 / 100000000 * ((0 : ℤ) : ℚ))) :=
  ⟨rfl, rfl, rfl, by norm_num,
    calculate_token_price_linear_buy noEval icoLinear 1000 0
      (1 / 1000000) (1 / 100000000) rfl rfl rfl (by norm_num)⟩

/-- Claim C6: whenever the pricing engine returns a value for a non-negative
amount - any curve, custom oracle, minted counter, buy or sell - that value
is non-negative: the per-token price is clamped to `0` before the total is
formed, and a sell net is floored at `0`. -/
theorem calculate_token_price_nonneg (ec : CustomEval) (amount minted : ℤ)
    (ico : IcoConfigModel) (is_sell : Bool) (r : ℚ)
    (hamt : 0 ≤ amount)
    (h : calculate_token_price ec amount ico minted is_sell = some r) :
    0 ≤ r := by
  rcases hbp : basePricePerToken ec ico minted with _ | bp
  · rw [calculate_token_price, hbp] at h
    exact absurd h (by simp)
  · rw [calculate_token_price, hbp] at h
    have hq : (0 : ℚ) ≤ (amount : ℚ) / pow10 ico.token.decimals :=
      div_nonneg (by exact_mod_cast hamt) (le_of_lt (pow10_pos _))
    cases is_sell with
    | true =>
        simp only [if_true] at h
        obtain rfl : _ = r := Option.some_injective _ h
        exact le_max_left _ _
    | false =>
        simp only [if_false, Bool.false_eq_true] at h
        obtain rfl : _ = r := Option.some_injective _ h
        exact mul_nonneg hq (le_max_left _ _)

/-- A fixed-curve fixture with price `1e-6`, 9 decimals and zero sell fee. -/
def icoFixed : IcoConfigModel :=
  { token := { name := "MyToken", symbol := "MMT",
               total_supply := 10 ^ 9, decimals := 9 },
    ico := { ico_id := "main_ico", start_time := 0, end_time := 10 ^ 10,
             curve_type := .fixed,
             fixed_price := some (1 / 1000000) } }

/-- Witness for C6: buying one whole token on the fixed-curve fixture costs
exactly `1e-6` SOL, which is indeed non-negative. -/
theorem calculate_token_price_nonneg_witness :
    (0 : ℤ) ≤ 1000000000 ∧
    calculate_token_price noEval 1000000000 icoFixed 0 false =
      some (1 / 1000000) ∧
    (0 : ℚ) ≤ 1 / 1000000 :=
  ⟨by decide,
    by norm_num [calculate_token_price, basePricePerToken, icoFixed, pow10,
      show Int.toNat 9 = 9 from rfl],
    calculate_token_price_nonneg noEval 1000000000 0 icoFixed false
      (1 / 1000000) (by decide)
      (by norm_num [calculate_token_price, basePricePerToken, icoFixed, pow10,
        show Int.toNat 9 = 9 from rfl])⟩

/-- Claim C7: whenever the base price is available and the amount is
non-negative, the sell result is `max 0 (gross - gross * fee)` for
`gross = amount_in_whole_tokens * clamped_price`; the net never exceeds the
gross when the fee is positive, and with a zero fee the sell result equals
the buy result. -/
theorem calculate_token_price_sell_fee_algebra (ec : CustomEval)
    (ico : IcoConfigModel) (amount minted : ℤ) (bp : ℚ)
    (hamt : 0 ≤ amount)
    (hbp : basePricePerToken ec ico minted = some bp) :
    calculate_token_price ec amount ico minted true =
      some (max 0 (sellGross amount ico bp -
        sellGross amount ico bp * ico.ico.sell_fee_percentage)) ∧
    (0 < ico.ico.sell_fee_percentage →
      max 0 (sellGross amount ico bp -
        sellGross amount ico bp * ico.ico.sell_fee_percentage) ≤
        sellGross amount ico bp) ∧
    (ico.ico.sell_fee_percentage = 0 →
      calculate_token_price ec amount ico minted true =
        calculate_token_price ec amount ico minted false) := by
  have hg : 0 ≤ sellGross amount ico bp :=
    mul_nonneg (div_nonneg (by exact_mod_cast hamt) (le_of_lt (pow10_pos _)))
      (le_max_left _ _)
  refine ⟨?_, ?_, ?_⟩
  · rw [calculate_token_price, hbp]
    simp [sellGross]
  · intro hfee
    have hfm : 0 ≤ sellGross amount ico bp * ico.ico.sell_fee_percentage :=
      mul_nonneg hg (le_of_lt hfee)
    exact max_le hg (by linarith)
  · intro hfee
    rw [calculate_token_price, calculate_token_price, hbp]
    simp only [if_true, Bool.false_eq_true, if_false, hfee, mul_zero,
      sub_zero]
    rw [max_eq_right]
    exact mul_nonneg (div_nonneg (by exact_mod_cast hamt)
      (le_of_lt (pow10_pos _))) (le_max_left _ _)

/-- A fixed-curve fixture with a 10 percent sell fee. -/
def icoFeeFixed : IcoConfigModel :=
  { token := { name := "MyToken", symbol := "MMT",
               total_supply := 10 ^ 9, decimals := 9 },
    ico := { ico_id := "fee_ico", start_time := 0, end_time := 10 ^ 10,
             curve_type := .fixed,
             fixed_price := some (1 / 1000000),
             sell_fee_percentage := 1 / 10 } }

/-- Witness for C7: selling one whole token on the 10-percent-fee fixture
nets `max 0 (gross - gross * 0.1)`. -/
theorem calculate_token_price_sell_fee_algebra_witness :
    (0 : ℤ) ≤ 1000000000 ∧
    basePricePerToken noEval icoFeeFixed 0 = some (1 / 1000000) ∧
    calculate_token_price noEval 1000000000 icoFeeFixed 0 true =
      some (max 0 (sellGross 1000000000 icoFeeFixed (1 / 1000000) -
        sellGross 1000000000 icoFeeFixed (1 / 1000000) *
          icoFeeFixed.ico.sell_fee_percentage)) :=
  ⟨by decide, rfl,
    (calculate_token_price_sell_fee_algebra noEval icoFeeFixed 1000000000 0
      (1 / 1000000) (by decide) rfl).1⟩

/-- Claim C9: for an existing ICO and a validated held amount, the discount
is the tiered formula `min((held / 10^decimals) / 1000 * 0.01, 0.1)`. -/
theorem get_discount_tiered_formula (icoData : SMap IcoConfigModel)
    (ico_id : String) (amount : ℤ) (ico : IcoConfigModel)
    (hne : ¬ ico_id = "") (hlen : ico_id.length ≤ 100)
    (h0 : 0 ≤ amount) (hmax : amount ≤ maxTokenAmount)
    (hfind : SMap.find icoData ico_id = some ico) :
    get_discount icoData ico_id amount =
      .ok (min (((amount : ℚ) / pow10 ico.token.decimals) / 1000 * (1 / 100))
        (1 / 10)) := by
  rw [get_discount, if_neg hne, if_neg (by simp [hlen]),
    if_neg (not_lt.mpr h0), if_neg (not_lt.mpr hmax), hfind]
  rfl

/-- Witness for C9: holding 5000 whole tokens (5e12 base units at 9
decimals) of the fixed fixture earns the 5 percent tier, below the cap. -/
theorem get_discount_tiered_formula_witness :
    ¬ "main_ico" = "" ∧
    "main_ico".length ≤ 100 ∧
    (0 : ℤ) ≤ 5000000000000 ∧
    (5000000000000 : ℤ) ≤ maxTokenAmount ∧
    SMap.find [("main_ico", icoFixed)] "main_ico" = some icoFixed ∧
    get_discount [("main_ico", icoFixed)] "main_ico" 5000000000000 =
      .ok (min ((((5000000000000 : ℤ) : ℚ) / pow10 icoFixed.token.decimals) /
        1000 * (1 / 100)) (1 / 10)) :=
  ⟨by decide, by decide, by decide, by decide, rfl,
    get_discount_tiered_formula [("main_ico", icoFixed)] "main_ico"
      5000000000000 icoFixed (by decide) (by decide) (by decide) (by decide)
      rfl⟩

/-- An empty registry, for the C1 counterexample. -/
def emptyRegistry : RegistryState := { icoData := [], minted := [] }

/-- Counterexample to claim C1 as stated: with the save failing, defining
the fixed fixture on an empty registry leaves the in-memory state mutated -
the new configuration and a fresh zero counter remain - so the state is not
the same after the call as before it. -/
theorem add_or_update_ico_save_failure_not_atomic_cex :
    (add_or_update_ico false emptyRegistry icoFixed).1 = false ∧
    ¬ (add_or_update_ico false emptyRegistry icoFixed).2 = emptyRegistry := by
  refine ⟨rfl, ?_⟩
  intro h
  have := congrArg RegistryState.icoData h
  simp [add_or_update_ico, emptyRegistry, SMap.set] at this

/-- Claim C1 as amended: on persistence failure the define operation does
report failure to the caller (`add_or_update_ico` returns `False`, which
`create_ico` turns into an error reply), but the in-memory mutation is left
applied: the new configuration is stored under its id, an already tracked
minted counter keeps its value, and a previously untracked id keeps its
fresh zero counter.  No rollback happens. -/
theorem add_or_update_ico_save_failure_keeps_mutation (st : RegistryState)
    (cfg : IcoConfigModel) :
    (add_or_update_ico false st cfg).1 = false ∧
    SMap.find (add_or_update_ico false st cfg).2.icoData cfg.ico.ico_id =
      some cfg ∧
    (∀ m, SMap.find st.minted cfg.ico.ico_id = some m →
      SMap.find (add_or_update_ico false st cfg).2.minted cfg.ico.ico_id =
        some m) ∧
    (SMap.find st.minted cfg.ico.ico_id = none →
      SMap.find (add_or_update_ico false st cfg).2.minted cfg.ico.ico_id =
        some 0) := by
  refine ⟨rfl, ?_, ?_, ?_⟩
  · simp [add_or_update_ico, SMap.find_set_self]
  · intro m hm
    simp [add_or_update_ico, hm]
  · intro hm
    simp [add_or_update_ico, hm, SMap.find_set_self]

/-- A registry already tracking the fixed fixture's id with 7 minted
tokens. -/
def trackedRegistry : RegistryState :=
  { icoData := [("main_ico", icoLinear)], minted := [("main_ico", 7)] }

/-- Witness for the amended C1: redefining `main_ico` with the save failing
still reports failure, yet the new config is in memory and the counter of 7
survives. -/
theorem add_or_update_ico_save_failure_keeps_mutation_witness :
    SMap.find trackedRegistry.minted "main_ico" = some 7 ∧
    SMap.find (add_or_update_ico false trackedRegistry icoFixed).2.minted
      "main_ico" = some 7 :=
  ⟨rfl,
    (add_or_update_ico_save_failure_keeps_mutation trackedRegistry
      icoFixed).2.2.1 7 rfl⟩

/-- Claim C10: redefining an ICO (any save outcome) stores the new
configuration under its id but never touches an already tracked minted
counter; the counter is initialised to 0 only for ids seen for the first
time. -/
theorem add_or_update_ico_preserves_minted (saveOk : Bool)
    (st : RegistryState) (cfg : IcoConfigModel) :
    SMap.find (add_or_update_ico saveOk st cfg).2.icoData cfg.ico.ico_id =
      some cfg ∧
    (∀ m, SMap.find st.minted cfg.ico.ico_id = some m →
      (add_or_update_ico saveOk st cfg).2.minted = st.minted) ∧
    (SMap.find st.minted cfg.ico.ico_id = none →
      SMap.find (add_or_update_ico saveOk st cfg).2.minted cfg.ico.ico_id =
        some 0) := by
  refine ⟨?_, ?_, ?_⟩
  · simp [add_or_update_ico, SMap.find_set_self]
  · intro m hm
    simp [add_or_update_ico, hm]
  · intro hm
    simp [add_or_update_ico, hm, SMap.find_set_self]

/-- Witness for C10: redefining the tracked `main_ico` (successful save)
replaces the config and leaves the whole minted map - hence the counter of
7 - unchanged. -/
theorem add_or_update_ico_preserves_minted_witness :
    SMap.find trackedRegistry.minted "main_ico" = some 7 ∧
    (add_or_update_ico true trackedRegistry icoFixed).2.minted =
      trackedRegistry.minted ∧
    SMap.find (add_or_update_ico true trackedRegistry icoFixed).2.icoData
      "main_ico" = some icoFixed :=
  ⟨rfl,
    (add_or_update_ico_preserves_minted true trackedRegistry icoFixed).2.1
      7 rfl,
    (add_or_update_ico_preserves_minted true trackedRegistry icoFixed).1⟩

/-- A confirmed, well-formed system-program direct transfer of `lam`
lamports from `SRC` to the wallet `ICOW`. -/
def respTransfer (lam : ℤ) : RpcTx :=
  { hasError := false, hasResult := true, metaErr := false,
    instructions :=
      [{ programId := "11111111111111111111111111111111",
         parsedType := "transfer",
         info := { source := "SRC", destination := "ICOW", lamports := lam } }] }

/-- A transaction whose first instruction is not a system-program
instruction. -/
def respWrongProgram : RpcTx :=
  { hasError := false, hasResult := true, metaErr := false,
    instructions :=
      [{ programId := "TokenkegQfeZyiNwAJbNbGKPFXCWuBvf9Ss623VQ5DA",
         parsedType := "transfer",
         info := { source := "SRC", destination := "ICOW", lamports := 5000 } }] }

/-- Claim C2, settled against the code as a bug witness: with a required
price of `2e-6` SOL, a well-formed transfer of 1000 lamports (`1e-6` SOL) to
the ICO wallet makes the body of `validate_payment_transaction` raise
`InsufficientFundsError`, but the function as observed by callers delivers
`InvalidTransactionError` - the catch-all `except Exception` at
solana_utils.py lines 118-120 rewraps it, merging the two error kinds the
claim (and errors.py, server.py and the tests) keep distinct.  A transfer of
3000 lamports at the same price succeeds, and a wrong-program transaction is
an `InvalidTransactionError` as expected. -/
theorem validate_payment_transaction_error_kinds_merged :
    validate_payment_transaction_body "ICOW" (2 / 1000000) (respTransfer 1000)
      = .error .insufficientFunds ∧
    validate_payment_transaction "ICOW" (2 / 1000000) (respTransfer 1000)
      = .error .invalidTransaction ∧
    ¬ validate_payment_transaction "ICOW" (2 / 1000000) (respTransfer 1000)
      = .error .insufficientFunds ∧
    validate_payment_transaction "ICOW" (2 / 1000000) (respTransfer 3000)
      = .ok "SRC" ∧
    validate_payment_transaction "ICOW" (2 / 1000000) respWrongProgram
      = .error .invalidTransaction := by
  refine ⟨?_, ?_, ?_, ?_, ?_⟩
  · rw [validate_payment_transaction_body]
    norm_num [respTransfer, systemProgramId, lamportsPerSol]
  · rw [validate_payment_transaction, validate_payment_transaction_body]
    norm_num [respTransfer, systemProgramId, lamportsPerSol]
  · rw [validate_payment_transaction, validate_payment_transaction_body]
    norm_num [respTransfer, systemProgramId, lamportsPerSol]
    decide
  · rw [validate_payment_transaction, validate_payment_transaction_body]
    norm_num [respTransfer, systemProgramId, lamportsPerSol]
  · rw [validate_payment_transaction, validate_payment_transaction_body]
    norm_num [respWrongProgram, systemProgramId, lamportsPerSol]
    rw [if_neg (by decide)]

/-- A server state whose rate cache already has the client at the limit
(count 10 at window start 100), with the linear fixture registered. -/
def stOverLimit : ServerState :=
  { icoData := [("main_ico", icoLinear)], minted := [("main_ico", 0)],
    rateCache := [("1.2.3.4", (10, 100))] }

/-- A request from that client with a malformed amount (zero tokens). -/
def reqMalformed : BuyRequest :=
  { ico_id := "main_ico", amount := 0, payment_transaction := "sig",
    client_ip := "1.2.3.4", sell := false }

/-- A ledger oracle whose every step would succeed. -/
def orcAllOk : LedgerOracle :=
  { sigOk := true, resp := respTransfer 1000000000, transferOk := true }

/-- Counterexample to claim C3 as stated: at time 130 (inside the window
started at 100) the client `1.2.3.4` is at the limit of 10, and the amount 0
is malformed - yet `buy_tokens` answers the `ValueError` (InvalidInput)
outcome, not `RateLimitExceeded`, because input validation runs first. -/
theorem buy_tokens_rate_check_not_first_cex :
    rlLookup stOverLimit.rateCache "1.2.3.4" = some (10, 100) ∧
    (130 : ℤ) - 100 < 60 ∧
    reqMalformed.amount ≤ 0 ∧
    (buy_tokens 10 130 noEval "ICOW" orcAllOk reqMalformed stOverLimit).1 =
      .valueError ∧
    ¬ (buy_tokens 10 130 noEval "ICOW" orcAllOk reqMalformed stOverLimit).1 =
      .rateLimitExceeded := by
  refine ⟨rfl, by decide, by decide, ?_, ?_⟩
  · rw [buy_tokens, if_pos]
    intro h
    exact absurd h.2.2.1 (by decide)
  · rw [buy_tokens, if_pos]
    · decide
    · intro h
      exact absurd h.2.2.1 (by decide)

/-- Claim C3 as amended: `buy_tokens` performs input validation first and
the rate-limit check second, so a request whose client is over the rate
limit and whose amount is malformed (non-positive or above the configured
maximum) gets the InvalidInput (`ValueError`) outcome, not
`RateLimitExceeded` - and the state, including the rate cache, is
untouched. -/
theorem buy_tokens_input_validated_before_rate_limit (limit : ℕ) (now : ℤ)
    (ec : CustomEval) (icoWallet : String) (orc : LedgerOracle)
    (req : BuyRequest) (st : ServerState) (cnt : ℕ) (ts : ℤ)
    (hrl : rlLookup st.rateCache req.client_ip = some (cnt, ts))
    (hover : limit ≤ cnt) (hwin : now - ts < 60)
    (hbad : req.amount ≤ 0 ∨ maxTokenAmount < req.amount) :
    buy_tokens limit now ec icoWallet orc req st = (.valueError, st) := by
  rw [buy_tokens, if_pos]
  intro h
  obtain ⟨-, -, h3, h4, -⟩ := h
  rcases hbad with h | h
  · exact absurd h3 (by omega)
  · exact absurd h4 (by omega)

/-- Witness for the amended C3 at the concrete over-limit, zero-amount
request. -/
theorem buy_tokens_input_validated_before_rate_limit_witness :
    rlLookup stOverLimit.rateCache reqMalformed.client_ip = some (10, 100) ∧
    (10 : ℕ) ≤ 10 ∧
    (130 : ℤ) - 100 < 60 ∧
    (reqMalformed.amount ≤ 0 ∨ maxTokenAmount < reqMalformed.amount) ∧
    buy_tokens 10 130 noEval "ICOW" orcAllOk reqMalformed stOverLimit =
      (.valueError, stOverLimit) :=
  ⟨rfl, by decide, by decide, Or.inl (by decide),
    buy_tokens_input_validated_before_rate_limit 10 130 noEval "ICOW"
      orcAllOk reqMalformed stOverLimit 10 100 rfl (by decide) (by decide)
      (Or.inl (by decide))⟩

/-- Appending a fresh binding behind entries that do not carry the key makes
it the lookup result. -/
theorem rlLookup_append_of_not_mem (l : RateCache) (ip : String) (v : ℕ × ℤ)
    (h : ∀ e ∈ l, ¬ e.1 = ip) : rlLookup (l ++ [(ip, v)]) ip = some v := by
  induction l with
  | nil => simp [rlLookup]
  | cons e rest ih =>
      have he : ¬ e.1 = ip := h e (List.mem_cons_self e rest)
      obtain ⟨k, w⟩ := e
      simp only [List.cons_append, rlLookup]
      rw [if_neg (fun hh => he hh.symm)]
      exact ih (fun e2 he2 => h e2 (List.mem_cons_of_mem _ he2))

/-- Every entry surviving a removal carries a different key. -/
theorem rlRemove_keys (c : RateCache) (ip : String) :
    ∀ e ∈ rlRemove c ip, ¬ e.1 = ip := by
  induction c with
  | nil => intro e he; simp [rlRemove] at he
  | cons e2 rest ih =>
      obtain ⟨k, w⟩ := e2
      intro e he
      by_cases hk : k = ip
      · rw [rlRemove, if_pos hk] at he
        exact ih e he
      · rw [rlRemove, if_neg hk] at he
        rcases List.mem_cons.mp he with h | h
        · subst h; exact hk
        · exact ih e h

/-- Writing a binding makes it findable. -/
theorem rlLookup_rlSet_self (c : RateCache) (ip : String) (v : ℕ × ℤ) :
    rlLookup (rlSet c ip v) ip = some v :=
  rlLookup_append_of_not_mem _ _ _ (rlRemove_keys c ip)

/-- Removal never grows the cache. -/
theorem rlRemove_length_le (c : RateCache) (ip : String) :
    (rlRemove c ip).length ≤ c.length := by
  induction c with
  | nil => simp [rlRemove]
  | cons e rest ih =>
      obtain ⟨k, w⟩ := e
      by_cases hk : k = ip
      · rw [rlRemove, if_pos hk]
        exact Nat.le_succ_of_le ih
      · rw [rlRemove, if_neg hk]
        simpa using ih

/-- Removing a present binding strictly shrinks the cache. -/
theorem rlRemove_length_lt (c : RateCache) (ip : String) (v : ℕ × ℤ)
    (h : rlLookup c ip = some v) : (rlRemove c ip).length < c.length := by
  induction c with
  | nil => simp [rlLookup] at h
  | cons e rest ih =>
      obtain ⟨k, w⟩ := e
      by_cases hk : ip = k
      · rw [rlRemove, if_pos hk.symm]
        exact Nat.lt_succ_of_le (rlRemove_length_le rest ip)
      · rw [rlLookup, if_neg hk] at h
        rw [rlRemove, if_neg (fun hh => hk hh.symm)]
        simpa using Nat.succ_lt_succ (ih h)

/-- Overwriting a present binding does not grow the cache. -/
theorem rlSet_length_le_of_mem (c : RateCache) (ip : String) (v w : ℕ × ℤ)
    (h : rlLookup c ip = some v) : (rlSet c ip w).length ≤ c.length := by
  have := rlRemove_length_lt c ip v h
  simp only [rlSet, List.length_append, List.length_cons, List.length_nil]
  omega

/-- Writing any binding grows the cache by at most one. -/
theorem rlSet_length_le (c : RateCache) (ip : String) (w : ℕ × ℤ) :
    (rlSet c ip w).length ≤ c.length + 1 := by
  have := rlRemove_length_le c ip
  simp only [rlSet, List.length_append, List.length_cons, List.length_nil]
  omega

/-- With at most 1000 tracked entries the opportunistic cleanup does not
run, so `check_rate_limit` is the plain per-key state machine. -/
theorem check_rate_limit_no_cleanup (limit : ℕ) (now : ℤ) (ip : String)
    (c : RateCache) (h : c.length ≤ 1000) :
    check_rate_limit limit now ip c =
      match rlLookup c ip with
      | some (count, timestamp) =>
          if 60 ≤ now - timestamp then (true, rlSet c ip (1, now))
          else if limit ≤ count then (false, c)
          else (true, rlSet c ip (count + 1, timestamp))
      | none => (true, rlSet c ip (1, now)) := by
  simp only [check_rate_limit]
  rw [if_neg (by omega)]

/-- Invariant of consecutive admits from a fresh key inside one window:
after `k` calls (`1 ≤ k ≤ limit`) the entry is `(k, t 0)` and the cache
stays within the cleanup threshold. -/
theorem admitIter_entry (limit : ℕ) (t : ℕ → ℤ) (ip : String) (c : RateCache)
    (h0 : rlLookup c ip = none) (hlen : c.length ≤ 999)
    (ht : ∀ i, t i - t 0 < 60) :
    ∀ k, 1 ≤ k → k ≤ limit →
      rlLookup (admitIter limit t ip c k) ip = some (k, t 0) ∧
      (admitIter limit t ip c k).length ≤ 1000 := by
  intro k
  induction k with
  | zero => intro h1 _; exact absurd h1 (by omega)
  | succ n ih =>
      intro _ hle
      by_cases hn : n = 0
      · subst hn
        have hc : check_rate_limit limit (t 0) ip c =
            (true, rlSet c ip (1, t 0)) := by
          rw [check_rate_limit_no_cleanup limit (t 0) ip c (by omega), h0]
        refine ⟨?_, ?_⟩
        · show rlLookup (check_rate_limit limit (t 0) ip
            (admitIter limit t ip c 0)).2 ip = some (1, t 0)
          rw [show admitIter limit t ip c 0 = c from rfl, hc]
          exact rlLookup_rlSet_self c ip (1, t 0)
        · show (check_rate_limit limit (t 0) ip
            (admitIter limit t ip c 0)).2.length ≤ 1000
          rw [show admitIter limit t ip c 0 = c from rfl, hc]
          show (rlSet c ip (1, t 0)).length ≤ 1000
          have := rlSet_length_le c ip (1, t 0)
          omega
      · have h1n : 1 ≤ n := by omega
        obtain ⟨ihl, ihlen⟩ := ih h1n (by omega)
        have hc : check_rate_limit limit (t n) ip (admitIter limit t ip c n) =
            (true, rlSet (admitIter limit t ip c n) ip (n + 1, t 0)) := by
          rw [check_rate_limit_no_cleanup limit (t n) ip _ ihlen, ihl]
          have hwin : ¬ 60 ≤ t n - t 0 := by have := ht n; omega
          have hcount : ¬ limit ≤ n := by omega
          simp only [if_neg hwin, if_neg hcount]
        refine ⟨?_, ?_⟩
        · show rlLookup (check_rate_limit limit (t n) ip
            (admitIter limit t ip c n)).2 ip = some (n + 1, t 0)
          rw [hc]
          exact rlLookup_rlSet_self _ ip (n + 1, t 0)
        · show (check_rate_limit limit (t n) ip
            (admitIter limit t ip c n)).2.length ≤ 1000
          rw [hc]
          exact le_trans (rlSet_length_le_of_mem _ ip _ _ ihl) ihlen

/-- Claim C4: from a fresh key, the first `limit` admits inside one
60-second window all return True - the first creating the `(1, t 0)` entry
and each later one incrementing the count to `(k, t 0)` - the
`(limit+1)`-th call inside the window returns False and leaves the cache
(hence the entry's count and window start) unchanged, and any call made 60
or more seconds after a stored window start returns True and resets the
entry to `(1, now)`. -/
theorem check_rate_limit_window_semantics (limit : ℕ) (t : ℕ → ℤ)
    (ip : String) (c : RateCache)
    (hlim : 1 ≤ limit)
    (h0 : rlLookup c ip = none) (hlen : c.length ≤ 999)
    (ht : ∀ i, t i - t 0 < 60) :
    (∀ k, k < limit →
      (check_rate_limit limit (t k) ip (admitIter limit t ip c k)).1 = true) ∧
    (∀ k, 1 ≤ k → k ≤ limit →
      rlLookup (admitIter limit t ip c k) ip = some (k, t 0)) ∧
    (check_rate_limit limit (t limit) ip (admitIter limit t ip c limit) =
      (false, admitIter limit t ip c limit)) ∧
    (∀ (c2 : RateCache) (cnt : ℕ) (ts now : ℤ),
      rlLookup c2 ip = some (cnt, ts) → c2.length ≤ 1000 → 60 ≤ now - ts →
      check_rate_limit limit now ip c2 = (true, rlSet c2 ip (1, now)) ∧
      rlLookup (check_rate_limit limit now ip c2).2 ip = some (1, now)) := by
  refine ⟨?_, ?_, ?_, ?_⟩
  · intro k hk
    by_cases hkz : k = 0
    · subst hkz
      rw [show admitIter limit t ip c 0 = c from rfl,
        check_rate_limit_no_cleanup limit (t 0) ip c (by omega), h0]
    · obtain ⟨hl, hln⟩ := admitIter_entry limit t ip c h0 hlen ht k
        (by omega) (by omega)
      rw [check_rate_limit_no_cleanup limit (t k) ip _ hln, hl]
      have hwin : ¬ 60 ≤ t k - t 0 := by have := ht k; omega
      have hcount : ¬ limit ≤ k := by omega
      simp only [if_neg hwin, if_neg hcount]
  · intro k h1 h2
    exact (admitIter_entry limit t ip c h0 hlen ht k h1 h2).1
  · obtain ⟨hl, hln⟩ := admitIter_entry limit t ip c h0 hlen ht limit
      hlim le_rfl
    rw [check_rate_limit_no_cleanup limit (t limit) ip _ hln, hl]
    have hwin : ¬ 60 ≤ t limit - t 0 := by have := ht limit; omega
    simp only [if_neg hwin, if_pos le_rfl]
  · intro c2 cnt ts now hl hln hwin
    have hc : check_rate_limit limit now ip c2 =
        (true, rlSet c2 ip (1, now)) := by
      rw [check_rate_limit_no_cleanup limit now ip c2 hln, hl]
      simp only [if_pos hwin]
    exact ⟨hc, by rw [hc]; exact rlLookup_rlSet_self c2 ip (1, now)⟩

/-- Witness for C4 with limit 2, an empty cache and all calls at time 100:
the third call inside the window is rejected and changes nothing. -/
theorem check_rate_limit_window_semantics_witness :
    (1 : ℕ) ≤ 2 ∧
    rlLookup ([] : RateCache) "k" = none ∧
    ([] : RateCache).length ≤ 999 ∧
    check_rate_limit 2 ((fun _ => (100 : ℤ)) 2) "k"
      (admitIter 2 (fun _ => (100 : ℤ)) "k" [] 2) =
      (false, admitIter 2 (fun _ => (100 : ℤ)) "k" [] 2) :=
  ⟨by decide, rfl, by decide,
    (check_rate_limit_window_semantics 2 (fun _ => (100 : ℤ)) "k" []
      (by decide) rfl (by decide) (fun i => by norm_num)).2.2.1⟩

/-- Incrementing adds exactly the amount to the incremented id's counter
(reading through the `.get(id, 0)` convention). -/
theorem get_total_increment_self (m : SMap ℤ) (k : String) (a : ℤ) :
    get_total_tokens_minted (increment_tokens_minted m k a) k =
      get_total_tokens_minted m k + a := by
  unfold increment_tokens_minted get_total_tokens_minted
  cases hf : SMap.find m k with
  | none => simp [SMap.find_set_self, hf]
  | some mv => simp [SMap.find_set_self, hf]

/-- Incrementing by a non-negative amount never lowers any id's counter. -/
theorem get_total_increment_le (m : SMap ℤ) (k : String) (a : ℤ)
    (ha : 0 ≤ a) (id : String) :
    get_total_tokens_minted m id ≤
      get_total_tokens_minted (increment_tokens_minted m k a) id := by
  by_cases hid : id = k
  · subst hid
    rw [get_total_increment_self]
    omega
  · unfold increment_tokens_minted
    cases hf : SMap.find m k with
    | none =>
        unfold get_total_tokens_minted
        rw [SMap.find_set_ne _ _ _ _ hid]
    | some mv =>
        unfold get_total_tokens_minted
        rw [SMap.find_set_ne _ _ _ _ hid]

/-- Classification of every `buy_tokens` run: either the minted map comes
out untouched (and the outcome is not success), or the run succeeded - in
which case input validation passed, it was a buy, and the minted map is the
incremented one. -/
theorem buy_tokens_state_cases (limit : ℕ) (now : ℤ) (ec : CustomEval)
    (icoWallet : String) (orc : LedgerOracle) (req : BuyRequest)
    (st : ServerState) :
    ((buy_tokens limit now ec icoWallet orc req st).2.minted = st.minted ∧
      ¬ (buy_tokens limit now ec icoWallet orc req st).1 = .success) ∨
    ((buy_tokens limit now ec icoWallet orc req st).1 = .success ∧
      validate_token_operation_params req ∧ req.sell = false ∧
      (buy_tokens limit now ec icoWallet orc req st).2.minted =
        increment_tokens_minted st.minted req.ico_id req.amount) := by
  rw [buy_tokens]
  by_cases hv : validate_token_operation_params req
  case neg => simp [hv]
  case pos =>
  rw [if_neg (not_not_intro hv)]
  cases hb : (check_rate_limit limit now req.client_ip st.rateCache).1 with
  | false => simp [hb]
  | true =>
  simp only [hb, Bool.not_eq_true, Bool.true_eq_false, if_false]
  cases hf : SMap.find st.icoData req.ico_id with
  | none => simp [hf]
  | some ico =>
  simp only [hf]
  by_cases hact : ico.ico.start_time ≤ now ∧ now ≤ ico.ico.end_time
  case neg => simp [hact]
  case pos =>
  rw [if_neg (not_not_intro hact)]
  cases hp : calculate_token_price ec req.amount ico
      (get_total_tokens_minted st.minted req.ico_id) req.sell with
  | none => simp
  | some price =>
  by_cases hneg : price < 0
  case pos => simp [hneg]
  case neg =>
  simp only [hneg, if_false]
  cases hsig : orc.sigOk with
  | false => simp [hsig]
  | true =>
  simp only [hsig, Bool.not_eq_true, Bool.true_eq_false, if_false]
  cases hsell : req.sell with
  | true => simp [hsell]
  | false =>
  simp only [hsell, Bool.false_eq_true, if_false]
  cases hpay : validate_payment_transaction icoWallet price orc.resp with
  | error e => cases e <;> simp
  | ok payer =>
  cases htr : orc.transferOk with
  | false => simp [htr]
  | true =>
  simp only [htr, Bool.not_eq_true, Bool.true_eq_false, if_false]
  refine Or.inr ⟨rfl, hv, ?_, rfl⟩
  simp [hsell]

/-- Claim C8: no `buy_tokens` run ever decreases any ICO's minted counter; a
successful run increments the requested ICO's counter by exactly the
(validated, hence positive) amount, and a sell request - which terminates at
the not-implemented reply - leaves the minted map untouched, as does every
failed or rejected purchase. -/
theorem buy_tokens_minted_monotone (limit : ℕ) (now : ℤ) (ec : CustomEval)
    (icoWallet : String) (orc : LedgerOracle) (req : BuyRequest)
    (st : ServerState) :
    (∀ id, get_total_tokens_minted st.minted id ≤
      get_total_tokens_minted
        (buy_tokens limit now ec icoWallet orc req st).2.minted id) ∧
    ((buy_tokens limit now ec icoWallet orc req st).1 = .success →
      get_total_tokens_minted
          (buy_tokens limit now ec icoWallet orc req st).2.minted req.ico_id =
        get_total_tokens_minted st.minted req.ico_id + req.amount ∧
      0 < req.amount) ∧
    (req.sell = true →
      (buy_tokens limit now ec icoWallet orc req st).2.minted = st.minted) := by
  rcases buy_tokens_state_cases limit now ec icoWallet orc req st with
    ⟨hm, hns⟩ | ⟨hs, hval, hsell, hm⟩
  · exact ⟨fun id => by rw [hm], fun h => absurd h hns, fun _ => hm⟩
  · have hamt : 0 < req.amount := hval.2.2.1
    refine ⟨?_, ?_, ?_⟩
    · intro id
      rw [hm]
      exact get_total_increment_le st.minted req.ico_id req.amount
        (le_of_lt hamt) id
    · intro _
      rw [hm]
      exact ⟨get_total_increment_self st.minted req.ico_id req.amount, hamt⟩
    · intro hst
      rw [hsell] at hst
      cases hst

/-- A trivial fixed-curve fixture for the success-path witness: whole-token
units (0 decimals) at a fixed price of 1 SOL per token. -/
def icoPlain : IcoConfigModel :=
  { token := { name := "Plain", symbol := "PLN",
               total_supply := 1000000, decimals := 0 },
    ico := { ico_id := "plain_ico", start_time := 0, end_time := 1000000,
             curve_type := .fixed, fixed_price := some 1 } }

/-- Server state tracking that fixture with 5 tokens already minted and an
empty rate cache. -/
def stPlain : ServerState :=
  { icoData := [("plain_ico", icoPlain)], minted := [("plain_ico", 5)],
    rateCache := [] }

/-- A valid buy request for 1000 base units of the plain fixture. -/
def reqPlain : BuyRequest :=
  { ico_id := "plain_ico", amount := 1000, payment_transaction := "sig",
    client_ip := "9.9.9.9", sell := false }

/-- A ledger oracle carrying a payment of `10^13` lamports (10000 SOL),
ample for the 1000 SOL price, with signature parsing and transfer both
succeeding. -/
def orcBig : LedgerOracle :=
  { sigOk := true, resp := respTransfer (10 ^ 13), transferOk := true }

/-- Witness for C8: the concrete run succeeds and moves the counter from 5
to 5 + 1000. -/
theorem buy_tokens_minted_monotone_witness :
    (buy_tokens 10 130 noEval "ICOW" orcBig reqPlain stPlain).1 = .success ∧
    get_total_tokens_minted
        (buy_tokens 10 130 noEval "ICOW" orcBig reqPlain stPlain).2.minted
        reqPlain.ico_id =
      get_total_tokens_minted stPlain.minted reqPlain.ico_id + 1000 := by
  have hs : (buy_tokens 10 130 noEval "ICOW" orcBig reqPlain stPlain).1 =
      .success := by
    norm_num [buy_tokens, validate_token_operation_params, maxTokenAmount,
      check_rate_limit, rlLookup, rlSet, rlRemove, SMap.find,
      get_total_tokens_minted, calculate_token_price, basePricePerToken,
      icoPlain, stPlain, reqPlain, orcBig, pow10,
      validate_payment_transaction, validate_payment_transaction_body,
      respTransfer, systemProgramId, lamportsPerSol]
    rw [if_neg (by decide)]
  exact ⟨hs,
    ((buy_tokens_minted_monotone 10 130 noEval "ICOW" orcBig reqPlain
      stPlain).2.1 hs).1⟩
